import Mathlib

/-!
Verification development for the MovyDesk firmware core:
the publish/subscribe message bus (src/lib/MessageBroker/MessageBroker.c),
the table-driven FSM executor (src/lib/FSM/FSM.c), and the desk serial
protocol driver (src/lib/DeskControl/DeskControl.cpp).

Modelling conventions:
- C bytes are Nat (all operations here only store and compare bytes, so no
  wrap-around arithmetic occurs);
- a fatal ASSERT is modelled by the operation returning `none`;
- function pointers (bus callbacks, FSM state actions) are modelled as
  abstract Nat identities, with `Option Nat` for possibly-NULL slots
  (`none` = NULL); a callback argument passed to subscribe stands for a
  non-NULL pointer;
- the float height accumulator of DeskControl is modelled over ℚ, keeping
  the exact arithmetic structure d1*100 + d2*10 + d3 (/ 10 on the
  decimal-point flag) of the source.
-/

namespace MovyDesk

-- ===========================================================================
-- MessageBroker (src/lib/MessageBroker/MessageBroker.c)
-- ===========================================================================

/-- MESSAGE_BROKER_CALLBACK_ARRAY_SIZE from MessageBroker.c. -/
def MESSAGE_BROKER_CALLBACK_ARRAY_SIZE : Nat := 10

/-- E_TOPIC_FIRST_TOPIC from MessageIDs.h (enum value 0). -/
def E_TOPIC_FIRST_TOPIC : Nat := 0

/-- E_TOPIC_LAST_TOPIC from MessageIDs.h (24th enum value). -/
def E_TOPIC_LAST_TOPIC : Nat := 24

/-- msg_t from MessageBroker.h: topic id, payload size, payload bytes. -/
structure msg_t where
  msg_id : Nat
  data_size : Nat
  data_bytes : List Nat
deriving DecidableEq

/-- The broker's static state: the `is_initialized` flag, and for each topic
the callback slot array (length MESSAGE_BROKER_CALLBACK_ARRAY_SIZE, `none`
being the NULL sentinel). -/
structure BrokerState where
  is_initialized : Bool
  topics : Nat → List (Option Nat)

/-- messagebroker_init: fatal if already initialized, otherwise clears
every topic's callback array. -/
def messagebroker_init (st : BrokerState) : Option BrokerState :=
  if st.is_initialized then none
  else some ⟨true, fun _ => List.replicate MESSAGE_BROKER_CALLBACK_ARRAY_SIZE none⟩

/-- The slot scan of messagebroker_subscribe: walk the callback array in
ascending order; the first NULL slot receives the callback (loop breaks with
is_subscribed), the first slot equal to the callback breaks the loop with
is_already_subscribed (fatal); a completed loop with neither flag set fails
the ASSERT(is_subscribed). -/
def subscribeScan : List (Option Nat) → Nat → Option (List (Option Nat))
  | [], _ => none
  | none :: rest, cb => some (some cb :: rest)
  | some c :: rest, cb =>
      if c = cb then none
      else (subscribeScan rest cb).map (fun l => some c :: l)

/-- messagebroker_subscribe: input checks (topic range, initialized), then
the slot scan; fatal on duplicate registration or full table. -/
def messagebroker_subscribe (st : BrokerState) (topic cb : Nat) :
    Option BrokerState :=
  if E_TOPIC_FIRST_TOPIC < topic ∧ topic < E_TOPIC_LAST_TOPIC ∧
      st.is_initialized = true then
    match subscribeScan (st.topics topic) cb with
    | none => none
    | some slots =>
        some ⟨st.is_initialized, fun t => if t = topic then slots else st.topics t⟩
  else none

/-- The dispatch loop of messagebroker_publish: every non-NULL slot's
callback is invoked, in ascending slot order. Returns the invoked callback
identities in invocation order. -/
def publishLoop : List (Option Nat) → List Nat
  | [] => []
  | none :: rest => publishLoop rest
  | some cb :: rest => cb :: publishLoop rest

/-- messagebroker_publish: input checks (initialized, topic range), then the
dispatch loop; ASSERT(is_anyone_listening) is fatal when no slot was
occupied. Returns the list of (callback, message) invocations. -/
def messagebroker_publish (st : BrokerState) (m : msg_t) :
    Option (List (Nat × msg_t)) :=
  if st.is_initialized = true ∧ E_TOPIC_FIRST_TOPIC < m.msg_id ∧
      m.msg_id < E_TOPIC_LAST_TOPIC then
    let invoked := publishLoop (st.topics m.msg_id)
    if invoked = [] then none
    else some (invoked.map (fun cb => (cb, m)))
  else none

-- ===========================================================================
-- FSM executor (src/lib/FSM/FSM.c)
-- ===========================================================================

/-- fsm_config_t from FSM.h. `transition_matrix` is the row-major
state×event table; `state_actions` holds the per-state action pointers
(`none` = NULL). -/
structure fsm_config_t where
  number_of_states : Nat
  number_of_events : Nat
  transition_matrix : List Nat
  state_actions : List (Option Nat)
  current_state : Nat
  current_event : Nat
deriving DecidableEq

/-- fsm_check_config: the ASSERTed input checks (the two pointer NULL checks
of the source hold trivially in the list model). -/
def fsm_check_config (c : fsm_config_t) : Bool :=
  decide (0 < c.number_of_states) && decide (0 < c.number_of_events) &&
  decide (c.current_state < c.number_of_states) &&
  decide (c.current_event < c.number_of_events)

/-- fsm_set_trigger_event: checks the config and ASSERT(event < number_of_events),
then stores the event. -/
def fsm_set_trigger_event (c : fsm_config_t) (event : Nat) : Option fsm_config_t :=
  if fsm_check_config c ∧ event < c.number_of_events then
    some { c with current_event := event }
  else none

/-- fsm_get_next_state: looks up transition_matrix[state * num_events + event],
commits it as current_state, and ASSERTs it is < number_of_states. -/
def fsm_get_next_state (c : fsm_config_t) : Option fsm_config_t :=
  if fsm_check_config c then
    let next := c.transition_matrix.getD
      (c.current_state * c.number_of_events + c.current_event) 0
    if next < c.number_of_states then some { c with current_state := next }
    else none
  else none

/-- fsm_run_state_action: looks up state_actions[current_state], fatal if
NULL, otherwise invokes it; returns the invoked action identity. -/
def fsm_run_state_action (c : fsm_config_t) : Option Nat :=
  if fsm_check_config c then c.state_actions.getD c.current_state none
  else none

/-- fsm_execute: check, then fsm_get_next_state, then fsm_run_state_action.
Returns the updated config and the identity of the single invoked action. -/
def fsm_execute (c : fsm_config_t) : Option (fsm_config_t × Nat) :=
  if fsm_check_config c then
    match fsm_get_next_state c with
    | none => none
    | some c1 =>
        match fsm_run_state_action c1 with
        | none => none
        | some a => some (c1, a)
  else none

-- ===========================================================================
-- DeskControl protocol driver (src/lib/DeskControl/DeskControl.cpp)
-- ===========================================================================

/-- FRAME_LENGTH from DeskControl.cpp. -/
def FRAME_LENGTH : Nat := 8

/-- REQUEST_FRAME_LENGTH from DeskControl.cpp. -/
def REQUEST_FRAME_LENGTH : Nat := 6

/-- DEFAULT_REPEATS from DeskControl.cpp. -/
def DEFAULT_REPEATS : Nat := 5

/-- HEIGHT_MSG_ID from DeskControl.cpp. -/
def HEIGHT_MSG_ID : Nat := 0x12

/-- MAX_MSG_LENGTH from DeskControl.cpp. -/
def MAX_MSG_LENGTH : Nat := 32

/-- REQ_FRAME: the 6-byte trigger pattern the desk broadcasts. -/
def REQ_FRAME : List Nat := [0x9B, 0x04, 0x11, 0x7C, 0xC3, 0x9D]

/-- CMD_WAKE command frame. -/
def CMD_WAKE : List Nat := [0x9B, 0x06, 0x02, 0x00, 0x00, 0x6C, 0xA1, 0x9D]

/-- CMD_UP command frame. -/
def CMD_UP : List Nat := [0x9B, 0x06, 0x02, 0x01, 0x00, 0xFC, 0xA0, 0x9D]

/-- CMD_DOWN command frame. -/
def CMD_DOWN : List Nat := [0x9B, 0x06, 0x02, 0x02, 0x00, 0x0C, 0xA0, 0x9D]

/-- CMD_M (memory) command frame. -/
def CMD_M : List Nat := [0x9B, 0x06, 0x02, 0x20, 0x00, 0xAC, 0xB8, 0x9D]

/-- CMD_PRESET1 command frame. -/
def CMD_PRESET1 : List Nat := [0x9B, 0x06, 0x02, 0x04, 0x00, 0xAC, 0xA3, 0x9D]

/-- CMD_PRESET2 command frame. -/
def CMD_PRESET2 : List Nat := [0x9B, 0x06, 0x02, 0x08, 0x00, 0xAC, 0xA6, 0x9D]

/-- CMD_PRESET3 command frame. -/
def CMD_PRESET3 : List Nat := [0x9B, 0x06, 0x02, 0x10, 0x00, 0xAC, 0xAC, 0x9D]

/-- CMD_PRESET4 command frame. -/
def CMD_PRESET4 : List Nat := [0x9B, 0x06, 0x02, 0x00, 0x01, 0xAC, 0x60, 0x9D]

/-- desk_command_e values from MessageDefinitions.h. -/
def DESK_CMD_NONE : Nat := 0

/-- desk_command_e: DESK_CMD_WAKE. -/
def DESK_CMD_WAKE : Nat := 1

/-- desk_command_e: DESK_CMD_UP. -/
def DESK_CMD_UP : Nat := 2

/-- desk_command_e: DESK_CMD_DOWN. -/
def DESK_CMD_DOWN : Nat := 3

/-- desk_command_e: DESK_CMD_MEMORY. -/
def DESK_CMD_MEMORY : Nat := 4

/-- desk_command_e: DESK_CMD_PRESET1. -/
def DESK_CMD_PRESET1 : Nat := 5

/-- desk_command_e: DESK_CMD_PRESET2. -/
def DESK_CMD_PRESET2 : Nat := 6

/-- desk_command_e: DESK_CMD_PRESET3. -/
def DESK_CMD_PRESET3 : Nat := 7

/-- desk_command_e: DESK_CMD_PRESET4. -/
def DESK_CMD_PRESET4 : Nat := 8

/-- desk_command_e: DESK_CMD_TOGGLE. -/
def DESK_CMD_TOGGLE : Nat := 9

/-- desk_command_e: DESK_CMD_LAST. -/
def DESK_CMD_LAST : Nat := 10

-- ---------------------------------------------------------------------------
-- Request detection ring buffer (prv_push_req_byte / prv_req_match)
-- ---------------------------------------------------------------------------

/-- The request-detection ring buffer state: req_window (indices 0..5),
req_idx, req_filled, as in DeskControl.cpp. -/
structure ReqState where
  req_window : Nat → Nat
  req_idx : Nat
  req_filled : Bool

/-- The ring-buffer state established by prv_deskcontrol_init:
zeroed window, cursor 0, not yet filled. -/
def initReqState : ReqState :=
  ⟨fun _ => 0, 0, false⟩

/-- prv_push_req_byte: store the byte at req_idx, advance req_idx mod 6,
mark the window filled once the cursor wraps to 0. -/
def prv_push_req_byte (s : ReqState) (b : Nat) : ReqState :=
  let idx := (s.req_idx + 1) % REQUEST_FRAME_LENGTH
  { req_window := fun j => if j = s.req_idx then b else s.req_window j
    req_idx := idx
    req_filled := if idx = 0 then true else s.req_filled }

/-- prv_req_match: false until the window has been filled; otherwise compare
req_window[(req_idx + i) mod 6] against REQ_FRAME[i] for i in 0..6. -/
def prv_req_match (s : ReqState) : Bool :=
  s.req_filled &&
    (List.range REQUEST_FRAME_LENGTH).all
      (fun i =>
        s.req_window ((s.req_idx + i) % REQUEST_FRAME_LENGTH) ==
          REQ_FRAME.getD i 0)

/-- Feeding a byte stream through prv_push_req_byte, in order. -/
def pushBytes (s : ReqState) (l : List Nat) : ReqState :=
  l.foldl prv_push_req_byte s

-- ---------------------------------------------------------------------------
-- Arm / repeat sequencing (prv_arm_with, prv_disarm, the match branch of
-- prv_deskcontrol_run)
-- ---------------------------------------------------------------------------

/-- The arm/repeat state of the driver: current_frame, armed,
repeats_remaining, and the WAKEUP_PIN level (true = HIGH). -/
structure DeskState where
  current_frame : List Nat
  armed : Bool
  repeats_remaining : Nat
  wake_pin : Bool
deriving DecidableEq

/-- The arm/repeat state established by prv_deskcontrol_init: zeroed frame,
disarmed, no repeats, wake pin LOW. -/
def initDeskState : DeskState :=
  ⟨List.replicate FRAME_LENGTH 0, false, 0, false⟩

/-- prv_disarm: clear armed, zero the counter, drop the wake pin. -/
def prv_disarm (s : DeskState) : DeskState :=
  { s with armed := false, repeats_remaining := 0, wake_pin := false }

/-- prv_arm_with: stage the frame (prv_set_frame), set armed,
repeats_remaining = DEFAULT_REPEATS, raise the wake pin. -/
def prv_arm_with (s : DeskState) (f : List Nat) : DeskState :=
  { s with current_frame := f, armed := true,
           repeats_remaining := DEFAULT_REPEATS, wake_pin := true }

/-- The trigger-match branch of prv_deskcontrol_run (lines 215..234): while
armed with repeats_remaining > 0, transmit the staged frame and decrement;
disarm when the counter reaches 0. Returns the transmitted frame, if any. -/
def prv_on_match (s : DeskState) : DeskState × Option (List Nat) :=
  if s.armed = true ∧ 0 < s.repeats_remaining then
    let s1 := { s with repeats_remaining := s.repeats_remaining - 1 }
    if s1.repeats_remaining = 0 then (prv_disarm s1, some s.current_frame)
    else (s1, some s.current_frame)
  else (s, none)

/-- Deliver n successive trigger matches, collecting the transmitted
frames in order. -/
def runMatches (s : DeskState) : Nat → DeskState × List (List Nat)
  | 0 => (s, [])
  | n + 1 =>
      let r1 := prv_on_match s
      let r2 := runMatches r1.1 n
      (r2.1, r1.2.toList ++ r2.2)

/-- prv_get_command_frame: map a desk command to its constant frame;
NULL (none) for commands without a frame. -/
def prv_get_command_frame (cmd : Nat) : Option (List Nat) :=
  if cmd = DESK_CMD_WAKE then some CMD_WAKE
  else if cmd = DESK_CMD_UP then some CMD_UP
  else if cmd = DESK_CMD_DOWN then some CMD_DOWN
  else if cmd = DESK_CMD_MEMORY then some CMD_M
  else if cmd = DESK_CMD_PRESET1 then some CMD_PRESET1
  else if cmd = DESK_CMD_PRESET2 then some CMD_PRESET2
  else if cmd = DESK_CMD_PRESET3 then some CMD_PRESET3
  else if cmd = DESK_CMD_PRESET4 then some CMD_PRESET4
  else none

/-- prv_execute_command: arm with the command's frame when it has one,
otherwise do nothing. -/
def prv_execute_command (s : DeskState) (cmd : Nat) : DeskState :=
  match prv_get_command_frame cmd with
  | some f => prv_arm_with s f
  | none => s

/-- The MSG_1000 branch of prv_msg_broker_callback: ASSERT the command is in
(DESK_CMD_NONE, DESK_CMD_LAST); a TOGGLE resolves to whichever of
preset-1/preset-2 was not last selected and updates g_last_toggle_position.
Returns (resolved command, new g_last_toggle_position). -/
def prv_resolve_command (cmd last_toggle : Nat) : Option (Nat × Nat) :=
  if DESK_CMD_NONE < cmd ∧ cmd < DESK_CMD_LAST then
    if cmd = DESK_CMD_TOGGLE then
      let c := if last_toggle = DESK_CMD_PRESET1 then DESK_CMD_PRESET2
               else DESK_CMD_PRESET1
      some (c, c)
    else some (cmd, last_toggle)
  else none

/-- Initial g_last_toggle_position (static initializer DESK_CMD_PRESET1). -/
def init_last_toggle_position : Nat := DESK_CMD_PRESET1

-- ---------------------------------------------------------------------------
-- Height telemetry decoding (prv_decode_digit, prv_parse_height_message,
-- and the framer of prv_deskcontrol_run)
-- ---------------------------------------------------------------------------

/-- prv_decode_digit: decode a 7-segment pattern byte to a digit 0..9
(bit i = segment i, bit 7 = decimal point, ignored); -1 for an
unrecognized pattern. -/
def prv_decode_digit (b : Nat) : Int :=
  let seg := fun i => b.testBit i
  if seg 0 ∧ seg 1 ∧ seg 2 ∧ seg 3 ∧ seg 4 ∧ seg 5 ∧ ¬seg 6 then 0
  else if ¬seg 0 ∧ seg 1 ∧ seg 2 ∧ ¬seg 3 ∧ ¬seg 4 ∧ ¬seg 5 ∧ ¬seg 6 then 1
  else if seg 0 ∧ seg 1 ∧ ¬seg 2 ∧ seg 3 ∧ seg 4 ∧ ¬seg 5 ∧ seg 6 then 2
  else if seg 0 ∧ seg 1 ∧ seg 2 ∧ seg 3 ∧ ¬seg 4 ∧ ¬seg 5 ∧ seg 6 then 3
  else if ¬seg 0 ∧ seg 1 ∧ seg 2 ∧ ¬seg 3 ∧ ¬seg 4 ∧ seg 5 ∧ seg 6 then 4
  else if seg 0 ∧ ¬seg 1 ∧ seg 2 ∧ seg 3 ∧ ¬seg 4 ∧ seg 5 ∧ seg 6 then 5
  else if seg 0 ∧ ¬seg 1 ∧ seg 2 ∧ seg 3 ∧ seg 4 ∧ seg 5 ∧ seg 6 then 6
  else if seg 0 ∧ seg 1 ∧ seg 2 ∧ ¬seg 3 ∧ ¬seg 4 ∧ ¬seg 5 ∧ ¬seg 6 then 7
  else if seg 0 ∧ seg 1 ∧ seg 2 ∧ seg 3 ∧ seg 4 ∧ seg 5 ∧ seg 6 then 8
  else if seg 0 ∧ seg 1 ∧ seg 2 ∧ seg 3 ∧ ¬seg 4 ∧ seg 5 ∧ seg 6 then 9
  else -1

/-- prv_has_decimal_point: bit 7 of the byte. -/
def prv_has_decimal_point (b : Nat) : Bool :=
  b.testBit 7

/-- The height-tracking state: g_current_height_cm (modelled over ℚ),
g_height_valid, the framer buffer (list of accumulated bytes, its length
standing for g_msg_buffer_idx), and g_in_message. -/
structure HeightState where
  g_current_height_cm : ℚ
  g_height_valid : Bool
  g_msg_buffer : List Nat
  g_in_message : Bool
deriving DecidableEq

/-- The height-tracking state established by prv_deskcontrol_init. -/
def initHeightState : HeightState :=
  ⟨0, false, [], false⟩

/-- prv_parse_height_message: on a frame [0x9B, len, 0x12, d1, d2, d3, ...]
decode the three digit bytes; if all are valid, store
d1*100 + d2*10 + d3 (divided by 10 when digit2 carries the decimal point)
as the current height and mark it valid; otherwise leave the state
untouched. -/
def prv_parse_height_message (s : HeightState) (msg : List Nat) : HeightState :=
  if msg.length < 6 then s
  else
    let digit1 := prv_decode_digit (msg.getD 3 0)
    let digit2 := prv_decode_digit (msg.getD 4 0)
    let digit3 := prv_decode_digit (msg.getD 5 0)
    if 0 ≤ digit1 ∧ 0 ≤ digit2 ∧ 0 ≤ digit3 then
      let height : ℚ := (digit1 : ℚ) * 100 + (digit2 : ℚ) * 10 + (digit3 : ℚ)
      let height := if prv_has_decimal_point (msg.getD 4 0) then height / 10
                    else height
      { s with g_current_height_cm := height, g_height_valid := true }
    else s

/-- The message framer of prv_deskcontrol_run (lines 167..208): start on
0x9B outside a message, accumulate until buffer[1] + 2 bytes have arrived,
hand height frames (type 0x12) to prv_parse_height_message, reset on
completion or on buffer overflow. -/
def framerStep (s : HeightState) (b : Nat) : HeightState :=
  if b = 0x9B ∧ s.g_in_message = false then
    { s with g_in_message := true, g_msg_buffer := [b] }
  else if s.g_in_message = true then
    if s.g_msg_buffer.length < MAX_MSG_LENGTH then
      let buf := s.g_msg_buffer ++ [b]
      if buf.length = 2 then { s with g_msg_buffer := buf }
      else
        let expected_len := buf.getD 1 0
        if expected_len + 2 ≤ buf.length then
          let s1 := if 1 ≤ expected_len ∧ buf.getD 2 0 = HEIGHT_MSG_ID then
                      prv_parse_height_message s buf
                    else s
          { s1 with g_in_message := false, g_msg_buffer := [] }
        else { s with g_msg_buffer := buf }
    else { s with g_in_message := false, g_msg_buffer := [] }
  else s

-- ---------------------------------------------------------------------------
-- The full per-byte step of prv_deskcontrol_run, and the driver operations
-- ---------------------------------------------------------------------------

/-- The complete DeskControl module state. -/
structure FullState where
  req : ReqState
  desk : DeskState
  height : HeightState

/-- The module state established by prv_deskcontrol_init. -/
def initFullState : FullState :=
  ⟨initReqState, initDeskState, initHeightState⟩

/-- One iteration of the byte loop of prv_deskcontrol_run: feed the byte to
the framer and to the request detector, then handle a trigger match.
Returns the new state and the transmitted frame, if any. -/
def processByte (st : FullState) (b : Nat) : FullState × Option (List Nat) :=
  let hs := framerStep st.height b
  let rq := prv_push_req_byte st.req b
  if prv_req_match rq then
    let r := prv_on_match st.desk
    (⟨rq, r.1, hs⟩, r.2)
  else (⟨rq, st.desk, hs⟩, none)

/-- The operations that mutate the driver's arm/repeat state: arming with a
frame (prv_arm_with via prv_execute_command), disarming (prv_disarm), and
processing one incoming byte (the loop body of prv_deskcontrol_run). -/
inductive DeskOp where
  | arm (f : List Nat)
  | disarm
  | byte (b : Nat)

/-- Apply one driver operation to the full module state. -/
def applyOp (st : FullState) : DeskOp → FullState
  | DeskOp.arm f => ⟨st.req, prv_arm_with st.desk f, st.height⟩
  | DeskOp.disarm => ⟨st.req, prv_disarm st.desk, st.height⟩
  | DeskOp.byte b => (processByte st b).1

/-- The arm/repeat invariant: armed exactly when repeats remain, and never
more than DEFAULT_REPEATS repeats. -/
def DeskInv (s : DeskState) : Prop :=
  (s.armed = true ↔ 0 < s.repeats_remaining) ∧
  s.repeats_remaining ≤ DEFAULT_REPEATS

instance (s : DeskState) : Decidable (DeskInv s) := by
  unfold DeskInv
  infer_instance

-- ===========================================================================
-- Helper lemmas: MessageBroker
-- ===========================================================================

lemma publishLoop_eq_filterMap (l : List (Option Nat)) :
    publishLoop l = l.filterMap id := by
  induction l with
  | nil => rfl
  | cons o rest ih =>
      cases o with
      | none => simpa [publishLoop, List.filterMap_cons] using ih
      | some cb => simpa [publishLoop, List.filterMap_cons] using ih

lemma publishLoop_all_none (l : List (Option Nat)) (h : ∀ o ∈ l, o = none) :
    publishLoop l = [] := by
  induction l with
  | nil => rfl
  | cons o rest ih =>
      have ho : o = none := h o (List.mem_cons_self o rest)
      subst ho
      exact ih (fun o hm => h o (List.mem_cons_of_mem _ hm))

lemma subscribeScan_dup (l : List Nat) (rest : List (Option Nat)) (cb : Nat)
    (h : cb ∈ l) : subscribeScan (l.map some ++ rest) cb = none := by
  induction l with
  | nil => cases h
  | cons a l ih =>
      by_cases ha : a = cb
      · simp [subscribeScan, ha]
      · have hcb : cb ∈ l := by
          cases List.mem_cons.mp h with
          | inl hh => exact absurd hh.symm ha
          | inr hh => exact hh
        simp [subscribeScan, ha, ih hcb]

lemma subscribeScan_fills_first_empty (l : List Nat) (k : Nat) (cb : Nat)
    (h : cb ∉ l) :
    subscribeScan (l.map some ++ none :: List.replicate k none) cb =
      some (l.map some ++ some cb :: List.replicate k none) := by
  induction l with
  | nil => rfl
  | cons a l ih =>
      have ha : ¬a = cb := fun hh => h (by simp [hh])
      have hcb : cb ∉ l := fun hh => h (List.mem_cons_of_mem _ hh)
      simp [subscribeScan, ha, ih hcb]

lemma subscribeScan_all_occupied (l : List Nat) (cb : Nat) :
    subscribeScan (l.map some) cb = none := by
  induction l with
  | nil => rfl
  | cons a l ih =>
      by_cases ha : a = cb
      · simp [subscribeScan, ha]
      · simp [subscribeScan, ha, ih]

-- ===========================================================================
-- Claim theorems: MessageBroker
-- ===========================================================================

/-- Claim C3: publishing to an in-range topic with no registered subscriber
is a fatal assertion failure; after exactly one subscriber has registered
(fresh broker, one subscribe), publishing invokes that subscriber exactly
once; in general publish invokes every non-empty slot's callback in
ascending slot order, passing the same message to each. -/
theorem publish_requires_listener_and_fans_out_in_order :
    (∀ (st : BrokerState) (m : msg_t), st.is_initialized = true →
      E_TOPIC_FIRST_TOPIC < m.msg_id → m.msg_id < E_TOPIC_LAST_TOPIC →
      (∀ o ∈ st.topics m.msg_id, o = none) →
      messagebroker_publish st m = none) ∧
    (∀ (st0 st1 st2 : BrokerState) (m : msg_t) (cb : Nat),
      messagebroker_init st0 = some st1 →
      messagebroker_subscribe st1 m.msg_id cb = some st2 →
      messagebroker_publish st2 m = some [(cb, m)]) ∧
    (∀ (st : BrokerState) (m : msg_t), st.is_initialized = true →
      E_TOPIC_FIRST_TOPIC < m.msg_id → m.msg_id < E_TOPIC_LAST_TOPIC →
      publishLoop (st.topics m.msg_id) ≠ [] →
      messagebroker_publish st m =
        some (((st.topics m.msg_id).filterMap id).map (fun cb => (cb, m)))) := by
  refine ⟨?_, ?_, ?_⟩
  · intro st m hinit h1 h2 hempty
    have hloop : publishLoop (st.topics m.msg_id) = [] :=
      publishLoop_all_none _ hempty
    simp [messagebroker_publish, hinit, h1, h2, hloop]
  · intro st0 st1 st2 m cb hini hsub
    unfold messagebroker_init at hini
    by_cases h0 : st0.is_initialized
    · simp [h0] at hini
    · simp [h0] at hini
      subst hini
      unfold messagebroker_subscribe at hsub
      by_cases hc : E_TOPIC_FIRST_TOPIC < m.msg_id ∧
          m.msg_id < E_TOPIC_LAST_TOPIC ∧
          (true : Bool) = true
      · rw [if_pos hc] at hsub
        have hscan : subscribeScan
            (List.replicate MESSAGE_BROKER_CALLBACK_ARRAY_SIZE
              (none : Option Nat)) cb =
            some (some cb :: List.replicate 9 none) := rfl
        rw [hscan] at hsub
        have hst2 : st2 = ⟨true, fun t => if t = m.msg_id
            then some cb :: List.replicate 9 none
            else List.replicate MESSAGE_BROKER_CALLBACK_ARRAY_SIZE none⟩ := by
          cases hsub
          rfl
        subst hst2
        simp [messagebroker_publish, hc.1, hc.2.1, publishLoop]
      · rw [if_neg hc] at hsub
        cases hsub
  · intro st m hinit h1 h2 hne
    rw [messagebroker_publish, if_pos ⟨hinit, h1, h2⟩]
    simp only [if_neg hne]
    rw [publishLoop_eq_filterMap]

/-- Witness for C3: on a broker freshly initialized and with callback 7
subscribed to topic 5, publishing to topic 5 invokes callback 7 exactly
once. -/
theorem publish_requires_listener_witness :
    messagebroker_publish
      ⟨true, fun t => if t = 5 then some 7 :: List.replicate 9 none
                      else List.replicate MESSAGE_BROKER_CALLBACK_ARRAY_SIZE none⟩
      ⟨5, 0, []⟩ = some [(7, ⟨5, 0, []⟩)] :=
  publish_requires_listener_and_fans_out_in_order.2.1
    ⟨false, fun _ => List.replicate MESSAGE_BROKER_CALLBACK_ARRAY_SIZE none⟩
    ⟨true, fun _ => List.replicate MESSAGE_BROKER_CALLBACK_ARRAY_SIZE none⟩
    ⟨true, fun t => if t = 5 then some 7 :: List.replicate 9 none
                    else List.replicate MESSAGE_BROKER_CALLBACK_ARRAY_SIZE none⟩
    ⟨5, 0, []⟩ 7 rfl rfl

/-- Claim C5: subscribing a callback already registered on a topic is fatal;
subscribing a distinct callback while an empty slot remains succeeds and
occupies the first empty slot; subscribing a distinct callback to a full
table is fatal. The topic tables reachable in this system are an occupied
prefix followed by empty slots, which is the shape quantified here. -/
theorem subscribe_duplicate_and_capacity :
    (∀ (st : BrokerState) (topic cb : Nat) (l : List Nat)
        (rest : List (Option Nat)),
      E_TOPIC_FIRST_TOPIC < topic → topic < E_TOPIC_LAST_TOPIC →
      st.is_initialized = true →
      st.topics topic = l.map some ++ rest → cb ∈ l →
      messagebroker_subscribe st topic cb = none) ∧
    (∀ (st : BrokerState) (topic cb : Nat) (l : List Nat) (k : Nat),
      E_TOPIC_FIRST_TOPIC < topic → topic < E_TOPIC_LAST_TOPIC →
      st.is_initialized = true →
      st.topics topic = l.map some ++ none :: List.replicate k none →
      cb ∉ l →
      messagebroker_subscribe st topic cb =
        some ⟨true, fun t => if t = topic
          then l.map some ++ some cb :: List.replicate k none
          else st.topics t⟩) ∧
    (∀ (st : BrokerState) (topic cb : Nat) (l : List Nat),
      E_TOPIC_FIRST_TOPIC < topic → topic < E_TOPIC_LAST_TOPIC →
      st.is_initialized = true →
      st.topics topic = l.map some → cb ∉ l →
      messagebroker_subscribe st topic cb = none) := by
  refine ⟨?_, ?_, ?_⟩
  · intro st topic cb l rest h1 h2 hinit htab hmem
    rw [messagebroker_subscribe, if_pos ⟨h1, h2, hinit⟩, htab,
      subscribeScan_dup l rest cb hmem]
  · intro st topic cb l k h1 h2 hinit htab hnot
    rw [messagebroker_subscribe, if_pos ⟨h1, h2, hinit⟩, htab,
      subscribeScan_fills_first_empty l k cb hnot, hinit]
  · intro st topic cb l h1 h2 hinit htab hnot
    rw [messagebroker_subscribe, if_pos ⟨h1, h2, hinit⟩, htab,
      subscribeScan_all_occupied l cb]

/-- Witness for C5: with topic 5 holding callbacks 3 and 4 in its first two
slots, re-subscribing callback 3 is fatal (returns none). -/
theorem subscribe_duplicate_witness :
    messagebroker_subscribe
      ⟨true, fun t => if t = 5
        then [some 3, some 4] ++ List.replicate 8 none
        else List.replicate MESSAGE_BROKER_CALLBACK_ARRAY_SIZE none⟩
      5 3 = none :=
  subscribe_duplicate_and_capacity.1
    ⟨true, fun t => if t = 5
      then [some 3, some 4] ++ List.replicate 8 none
      else List.replicate MESSAGE_BROKER_CALLBACK_ARRAY_SIZE none⟩
    5 3 [3, 4] (List.replicate 8 none)
    (by decide) (by decide) rfl rfl (by decide)

-- ===========================================================================
-- Claim theorems: FSM
-- ===========================================================================

/-- Claim C4: with current_state and current_event within the declared
bounds, fsm_execute commits transition_matrix[state * num_events + event] as
the new state and invokes that state's action exactly once; an event at or
beyond number_of_events is rejected by fsm_set_trigger_event, and a
looked-up next state at or beyond number_of_states is rejected by
fsm_get_next_state. -/
theorem fsm_execute_transitions_and_rejects_out_of_bounds
    (c : fsm_config_t) (a next : Nat)
    (hs : 0 < c.number_of_states) (he : 0 < c.number_of_events)
    (hcs : c.current_state < c.number_of_states)
    (hce : c.current_event < c.number_of_events)
    (hnext : next = c.transition_matrix.getD
      (c.current_state * c.number_of_events + c.current_event) 0) :
    (next < c.number_of_states →
      c.state_actions.getD next none = some a →
      fsm_execute c = some ({ c with current_state := next }, a)) ∧
    (∀ e, c.number_of_events ≤ e → fsm_set_trigger_event c e = none) ∧
    (c.number_of_states ≤ next → fsm_get_next_state c = none) := by
  have hcheck : fsm_check_config c = true := by
    simp [fsm_check_config, hs, he, hcs, hce]
  refine ⟨?_, ?_, ?_⟩
  · intro hlt hact
    have hnextstate : fsm_get_next_state c =
        some { c with current_state := next } := by
      rw [fsm_get_next_state, if_pos hcheck]
      simp only [← hnext, if_pos hlt]
    have hcheck1 : fsm_check_config { c with current_state := next } = true := by
      simp [fsm_check_config, hs, he, hlt, hce]
    have haction : fsm_run_state_action { c with current_state := next } =
        some a := by
      rw [fsm_run_state_action, if_pos hcheck1]
      exact hact
    rw [fsm_execute, if_pos hcheck, hnextstate]
    simp only [haction]
  · intro e hee
    rw [fsm_set_trigger_event, if_neg]
    intro hcon
    exact absurd hcon.2 (Nat.not_lt.mpr hee)
  · intro hge
    rw [fsm_get_next_state, if_pos hcheck]
    simp only [← hnext, if_neg (Nat.not_lt.mpr hge)]

/-- Witness for C4: a 2-state, 2-event machine with transition matrix
[1, 0, 0, 1] at (state 0, event 0) transitions to state 1 and invokes
action 20; event 2 is rejected; and with an out-of-range matrix entry the
lookup is rejected. -/
theorem fsm_execute_witness :
    fsm_execute ⟨2, 2, [1, 0, 0, 1], [some 10, some 20], 0, 0⟩ =
      some (⟨2, 2, [1, 0, 0, 1], [some 10, some 20], 1, 0⟩, 20) ∧
    fsm_set_trigger_event ⟨2, 2, [1, 0, 0, 1], [some 10, some 20], 0, 0⟩ 2 =
      none ∧
    fsm_get_next_state ⟨2, 2, [9, 0, 0, 1], [some 10, some 20], 0, 0⟩ = none :=
  ⟨(fsm_execute_transitions_and_rejects_out_of_bounds
      ⟨2, 2, [1, 0, 0, 1], [some 10, some 20], 0, 0⟩ 20 1
      (by decide) (by decide) (by decide) (by decide) (by decide)).1
      (by decide) (by decide),
   (fsm_execute_transitions_and_rejects_out_of_bounds
      ⟨2, 2, [1, 0, 0, 1], [some 10, some 20], 0, 0⟩ 20 1
      (by decide) (by decide) (by decide) (by decide) (by decide)).2.1
      2 (by decide),
   (fsm_execute_transitions_and_rejects_out_of_bounds
      ⟨2, 2, [9, 0, 0, 1], [some 10, some 20], 0, 0⟩ 0 9
      (by decide) (by decide) (by decide) (by decide) (by decide)).2.2
      (by decide)⟩

-- ===========================================================================
-- Helper lemmas: arm / repeat sequencing
-- ===========================================================================

lemma prv_on_match_disarmed (s : DeskState) (h : s.armed = false) :
    prv_on_match s = (s, none) := by
  rw [prv_on_match, if_neg]
  intro hcon
  rw [h] at hcon
  exact Bool.false_ne_true hcon.1

lemma runMatches_disarmed (n : Nat) (s : DeskState) (h : s.armed = false) :
    runMatches s n = (s, []) := by
  induction n with
  | zero => rfl
  | succ n ih =>
      rw [runMatches, prv_on_match_disarmed s h]
      simp [ih]

lemma runMatches_armed_spec (n : Nat) :
    ∀ (fr : List Nat) (r : Nat) (w : Bool), 0 < r →
      (runMatches ⟨fr, true, r, w⟩ n).2 = List.replicate (min n r) fr ∧
      (runMatches ⟨fr, true, r, w⟩ n).1 =
        (if r ≤ n then ⟨fr, false, 0, false⟩ else ⟨fr, true, r - n, w⟩) := by
  induction n with
  | zero =>
      intro fr r w hr
      refine ⟨by simp [runMatches], ?_⟩
      rw [if_neg (by omega)]
      simp [runMatches]
  | succ n ih =>
      intro fr r w hr
      by_cases h1 : r - 1 = 0
      · have hr1 : r = 1 := by omega
        subst hr1
        have hmatch : prv_on_match ⟨fr, true, 1, w⟩ =
            (⟨fr, false, 0, false⟩, some fr) := by
          simp [prv_on_match, prv_disarm]
        simp only [runMatches, hmatch]
        rw [runMatches_disarmed n ⟨fr, false, 0, false⟩ rfl]
        refine ⟨?_, ?_⟩
        · rw [show min (n + 1) 1 = 1 from by omega]
          simp
        · rw [if_pos (by omega)]
      · have hmatch : prv_on_match ⟨fr, true, r, w⟩ =
            (⟨fr, true, r - 1, w⟩, some fr) := by
          simp [prv_on_match, hr, h1]
        obtain ⟨iha, ihb⟩ := ih fr (r - 1) w (by omega)
        simp only [runMatches, hmatch]
        refine ⟨?_, ?_⟩
        · simp only [iha]
          rw [show min (n + 1) r = min n (r - 1) + 1 from by omega]
          simp [List.replicate_succ]
        · simp only [ihb]
          by_cases h2 : r - 1 ≤ n
          · rw [if_pos h2, if_pos (by omega)]
          · rw [if_neg h2, if_neg (by omega),
              show r - 1 - n = r - (n + 1) from by omega]

-- ===========================================================================
-- Claim theorems: arm / repeat sequencing
-- ===========================================================================

/-- Claim C2: after arming with a command X that has a defined frame, each
of the next 5 trigger matches transmits the staged frame verbatim and
decrements repeats_remaining; at 0 the driver disarms (armed false, counter
zero, wake pin low), and further matches before re-arming transmit
nothing. -/
theorem arm_then_five_matches_transmit_then_disarm
    (s0 : DeskState) (cmd : Nat) (f : List Nat)
    (hf : prv_get_command_frame cmd = some f) :
    (∀ n, (runMatches (prv_arm_with s0 f) n).2 =
      List.replicate (min n DEFAULT_REPEATS) f) ∧
    (∀ n, n < DEFAULT_REPEATS →
      (runMatches (prv_arm_with s0 f) n).1.armed = true ∧
      (runMatches (prv_arm_with s0 f) n).1.repeats_remaining =
        DEFAULT_REPEATS - n) ∧
    ((runMatches (prv_arm_with s0 f) DEFAULT_REPEATS).1.armed = false ∧
     (runMatches (prv_arm_with s0 f) DEFAULT_REPEATS).1.repeats_remaining = 0 ∧
     (runMatches (prv_arm_with s0 f) DEFAULT_REPEATS).1.wake_pin = false) ∧
    (runMatches (prv_arm_with s0 f) (DEFAULT_REPEATS + 1)).2 =
      List.replicate DEFAULT_REPEATS f := by
  have harm : prv_arm_with s0 f = ⟨f, true, DEFAULT_REPEATS, true⟩ := rfl
  rw [harm]
  refine ⟨?_, ?_⟩
  · intro n
    exact (runMatches_armed_spec n f DEFAULT_REPEATS true (by decide)).1
  · refine ⟨?_, ?_, ?_⟩
    · intro n hn
      have h := (runMatches_armed_spec n f DEFAULT_REPEATS true (by decide)).2
      rw [if_neg (by omega)] at h
      rw [h]
      exact ⟨rfl, rfl⟩
    · have h := (runMatches_armed_spec DEFAULT_REPEATS f DEFAULT_REPEATS true
        (by decide)).2
      rw [if_pos (le_refl _)] at h
      rw [h]
      exact ⟨rfl, rfl, rfl⟩
    · have h := (runMatches_armed_spec (DEFAULT_REPEATS + 1) f DEFAULT_REPEATS
        true (by decide)).1
      rw [h]
      rfl

/-- Witness for C2: arming with CMD_UP and delivering 6 trigger matches
transmits CMD_UP exactly 5 times. -/
theorem arm_then_five_matches_witness :
    (runMatches (prv_arm_with initDeskState CMD_UP) 6).2 =
      List.replicate 5 CMD_UP :=
  (arm_then_five_matches_transmit_then_disarm initDeskState DESK_CMD_UP CMD_UP
    rfl).2.2.2

/-- Claim C7: arming with Y while still armed with X (repeats remaining)
overwrites the staged frame with Y's frame and resets repeats_remaining to
DEFAULT_REPEATS; the abandoned repeats of X are never transmitted
afterwards (every later transmission is Y's frame). -/
theorem rearm_overwrites_and_abandons_old_frame
    (s : DeskState) (cmdX cmdY : Nat) (fX fY : List Nat)
    (hX : prv_get_command_frame cmdX = some fX)
    (hY : prv_get_command_frame cmdY = some fY)
    (hframe : s.current_frame = fX)
    (harmed : s.armed = true)
    (hrep : 0 < s.repeats_remaining)
    (hne : fX ≠ fY) :
    (prv_arm_with s fY).current_frame = fY ∧
    (prv_arm_with s fY).repeats_remaining = DEFAULT_REPEATS ∧
    (∀ n, (runMatches (prv_arm_with s fY) n).2 =
      List.replicate (min n DEFAULT_REPEATS) fY) ∧
    (∀ n, fX ∉ (runMatches (prv_arm_with s fY) n).2) := by
  have harm : prv_arm_with s fY = ⟨fY, true, DEFAULT_REPEATS, true⟩ := rfl
  rw [harm]
  have hrep2 : ∀ n,
      (runMatches (⟨fY, true, DEFAULT_REPEATS, true⟩ : DeskState) n).2 =
        List.replicate (min n DEFAULT_REPEATS) fY := by
    intro n
    exact (runMatches_armed_spec n fY DEFAULT_REPEATS true (by decide)).1
  refine ⟨rfl, rfl, hrep2, ?_⟩
  intro n hmem
  rw [hrep2 n] at hmem
  exact hne (List.eq_of_mem_replicate hmem)

/-- Witness for C7: with the driver armed with CMD_UP and 3 repeats left
(after 2 of 5 matches), re-arming with CMD_DOWN stages CMD_DOWN and CMD_UP
is not among the next 9 transmissions. -/
theorem rearm_overwrites_witness :
    (prv_arm_with (runMatches (prv_arm_with initDeskState CMD_UP) 2).1
      CMD_DOWN).current_frame = CMD_DOWN ∧
    CMD_UP ∉ (runMatches (prv_arm_with
      (runMatches (prv_arm_with initDeskState CMD_UP) 2).1 CMD_DOWN) 9).2 :=
  ⟨(rearm_overwrites_and_abandons_old_frame
      (runMatches (prv_arm_with initDeskState CMD_UP) 2).1
      DESK_CMD_UP DESK_CMD_DOWN CMD_UP CMD_DOWN
      rfl rfl (by decide) (by decide) (by decide) (by decide)).1,
   (rearm_overwrites_and_abandons_old_frame
      (runMatches (prv_arm_with initDeskState CMD_UP) 2).1
      DESK_CMD_UP DESK_CMD_DOWN CMD_UP CMD_DOWN
      rfl rfl (by decide) (by decide) (by decide) (by decide)).2.2.2 9⟩

/-- Claim C6: TOGGLE alternates deterministically from the initial
remembered position preset-1: the first TOGGLE resolves to preset-2, the
next to preset-1, the next to preset-2 again, each updating the remembered
position; and the three toggle-then-exhaust cycles arm the frames
CMD_PRESET2, CMD_PRESET1, CMD_PRESET2 in that order. -/
theorem toggle_alternates_from_preset1 :
    prv_resolve_command DESK_CMD_TOGGLE init_last_toggle_position =
      some (DESK_CMD_PRESET2, DESK_CMD_PRESET2) ∧
    prv_resolve_command DESK_CMD_TOGGLE DESK_CMD_PRESET2 =
      some (DESK_CMD_PRESET1, DESK_CMD_PRESET1) ∧
    prv_resolve_command DESK_CMD_TOGGLE DESK_CMD_PRESET1 =
      some (DESK_CMD_PRESET2, DESK_CMD_PRESET2) ∧
    (prv_execute_command initDeskState DESK_CMD_PRESET2).current_frame =
      CMD_PRESET2 ∧
    (prv_execute_command
      (runMatches (prv_execute_command initDeskState DESK_CMD_PRESET2) 5).1
      DESK_CMD_PRESET1).current_frame = CMD_PRESET1 ∧
    (prv_execute_command
      (runMatches (prv_execute_command
        (runMatches (prv_execute_command initDeskState DESK_CMD_PRESET2) 5).1
        DESK_CMD_PRESET1) 5).1
      DESK_CMD_PRESET2).current_frame = CMD_PRESET2 := by
  decide

-- ===========================================================================
-- Claim theorems: height telemetry
-- ===========================================================================

/-- Claim C8: for a telemetry frame whose three digit bytes decode to valid
digits, the stored height is d1*100 + d2*10 + d3, divided by 10 exactly
when bit 7 (the decimal point) of the tens-digit byte is set, and the
height becomes valid. -/
theorem height_decode_value (s : HeightState) (msg : List Nat)
    (d1 d2 d3 : Int)
    (hlen : 6 ≤ msg.length)
    (h1 : prv_decode_digit (msg.getD 3 0) = d1)
    (h2 : prv_decode_digit (msg.getD 4 0) = d2)
    (h3 : prv_decode_digit (msg.getD 5 0) = d3)
    (hp1 : 0 ≤ d1) (hp2 : 0 ≤ d2) (hp3 : 0 ≤ d3) :
    (prv_parse_height_message s msg).g_current_height_cm =
      (if prv_has_decimal_point (msg.getD 4 0) = true
        then ((d1 : ℚ) * 100 + (d2 : ℚ) * 10 + (d3 : ℚ)) / 10
        else (d1 : ℚ) * 100 + (d2 : ℚ) * 10 + (d3 : ℚ)) ∧
    (prv_parse_height_message s msg).g_height_valid = true := by
  refine ⟨?_, ?_⟩
  · rw [prv_parse_height_message, if_neg (by omega)]
    simp only [h1, h2, h3]
    rw [if_pos ⟨hp1, hp2, hp3⟩]
  · rw [prv_parse_height_message, if_neg (by omega)]
    simp only [h1, h2, h3]
    rw [if_pos ⟨hp1, hp2, hp3⟩]

/-- Witness for C8: the digit patterns for 0, 1, 2 (0x3F, 0x06, 0x5B) with
the decimal-point bit set on the tens digit (0x86) decode to height 6/5
(that is, 1.20), and without it to 12. -/
theorem height_decode_witness :
    (prv_parse_height_message initHeightState
      [0x9B, 4, 0x12, 0x3F, 0x86, 0x5B]).g_current_height_cm = 6 / 5 ∧
    (prv_parse_height_message initHeightState
      [0x9B, 4, 0x12, 0x3F, 0x06, 0x5B]).g_current_height_cm = 12 := by
  have ha := height_decode_value initHeightState
    [0x9B, 4, 0x12, 0x3F, 0x86, 0x5B] 0 1 2
    (by decide) (by decide) (by decide) (by decide)
    (by decide) (by decide) (by decide)
  have hb := height_decode_value initHeightState
    [0x9B, 4, 0x12, 0x3F, 0x06, 0x5B] 0 1 2
    (by decide) (by decide) (by decide) (by decide)
    (by decide) (by decide) (by decide)
  have hdpa : prv_has_decimal_point
      (([0x9B, 4, 0x12, 0x3F, 0x86, 0x5B] : List Nat).getD 4 0) = true := by
    decide
  have hdpb : prv_has_decimal_point
      (([0x9B, 4, 0x12, 0x3F, 0x06, 0x5B] : List Nat).getD 4 0) = false := by
    decide
  constructor
  · rw [ha.1, if_pos hdpa]
    norm_num
  · rw [hb.1, if_neg (by rw [hdpb]; exact Bool.false_ne_true)]
    norm_num

/-- Claim C9: a telemetry frame in which at least one digit byte is not a
recognized 7-segment pattern leaves the height state completely unchanged
(no partial or garbage value), without any fatal error. -/
theorem bad_digit_leaves_height_unchanged (s : HeightState) (msg : List Nat)
    (hbad : prv_decode_digit (msg.getD 3 0) < 0 ∨
            prv_decode_digit (msg.getD 4 0) < 0 ∨
            prv_decode_digit (msg.getD 5 0) < 0) :
    prv_parse_height_message s msg = s := by
  rw [prv_parse_height_message]
  by_cases hlen : msg.length < 6
  · rw [if_pos hlen]
  · rw [if_neg hlen, if_neg]
    intro hcon
    rcases hbad with hb | hb | hb
    · exact absurd hcon.1 (by omega)
    · exact absurd hcon.2.1 (by omega)
    · exact absurd hcon.2.2 (by omega)

/-- Witness for C9: a frame whose hundreds-digit byte 0x00 matches no
7-segment pattern leaves the freshly initialized height state unchanged. -/
theorem bad_digit_witness :
    prv_parse_height_message initHeightState
      [0x9B, 4, 0x12, 0x00, 0x06, 0x5B] = initHeightState :=
  bad_digit_leaves_height_unchanged initHeightState
    [0x9B, 4, 0x12, 0x00, 0x06, 0x5B] (by decide)

-- ===========================================================================
-- Helper lemmas: trigger pattern detection
-- ===========================================================================

lemma take_succ_getD (s : List Nat) (m : Nat) (h : m < s.length) :
    s.take (m + 1) = s.take m ++ [s.getD m 0] := by
  rw [List.getD_eq_getElem s 0 h]
  exact (List.take_concat_get' s m h).symm

lemma pushBytes_snoc (s0 : ReqState) (l : List Nat) (b : Nat) :
    pushBytes s0 (l ++ [b]) = prv_push_req_byte (pushBytes s0 l) b := by
  simp [pushBytes, List.foldl_append]

lemma pushBytes_invariant (s : List Nat) :
    ∀ m, m ≤ s.length →
      (pushBytes initReqState (s.take m)).req_idx = m % 6 ∧
      ((pushBytes initReqState (s.take m)).req_filled = true ↔ 6 ≤ m) ∧
      (∀ t, t < m → m ≤ t + 6 →
        (pushBytes initReqState (s.take m)).req_window (t % 6) = s.getD t 0) := by
  intro m
  induction m with
  | zero =>
      intro _
      refine ⟨rfl, by simp [pushBytes, initReqState], ?_⟩
      intro t ht
      exact absurd ht (Nat.not_lt_zero t)
  | succ m ih =>
      intro hm1
      have hmlt : m < s.length := by omega
      obtain ⟨hidx, hfill, hwin⟩ := ih (by omega)
      rw [take_succ_getD s m hmlt, pushBytes_snoc]
      set σ := pushBytes initReqState (s.take m) with hσ
      refine ⟨?_, ?_, ?_⟩
      · show (σ.req_idx + 1) % REQUEST_FRAME_LENGTH = (m + 1) % 6
        rw [hidx]
        simp only [REQUEST_FRAME_LENGTH]
        omega
      · show (if (σ.req_idx + 1) % REQUEST_FRAME_LENGTH = 0 then true
              else σ.req_filled) = true ↔ 6 ≤ m + 1
        rw [hidx]
        simp only [REQUEST_FRAME_LENGTH]
        by_cases hc : (m % 6 + 1) % 6 = 0
        · rw [if_pos hc]
          constructor
          · intro _
            omega
          · intro _
            rfl
        · rw [if_neg hc, hfill]
          omega
      · intro t ht hle
        show (if t % 6 = σ.req_idx then s.getD m 0 else σ.req_window (t % 6)) =
          s.getD t 0
        rw [hidx]
        by_cases hteq : t = m
        · subst hteq
          rw [if_pos rfl]
        · have hne : ¬t % 6 = m % 6 := by omega
          rw [if_neg hne]
          exact hwin t (by omega) (by omega)

lemma req_match_char (s : List Nat) (m : Nat) (hm : m ≤ s.length)
    (h6 : 6 ≤ m) :
    (prv_req_match (pushBytes initReqState (s.take m)) = true ↔
      ∀ i, i < 6 → s.getD (m - 6 + i) 0 = REQ_FRAME.getD i 0) := by
  obtain ⟨hidx, hfill, hwin⟩ := pushBytes_invariant s m hm
  have hw : ∀ i, i < 6 →
      (pushBytes initReqState (s.take m)).req_window
        (((pushBytes initReqState (s.take m)).req_idx + i) %
          REQUEST_FRAME_LENGTH) = s.getD (m - 6 + i) 0 := by
    intro i hi
    rw [hidx]
    have harg : (m % 6 + i) % REQUEST_FRAME_LENGTH = (m - 6 + i) % 6 := by
      simp only [REQUEST_FRAME_LENGTH]
      omega
    rw [harg]
    exact hwin (m - 6 + i) (by omega) (by omega)
  rw [prv_req_match, Bool.and_eq_true, List.all_eq_true]
  constructor
  · rintro ⟨-, hall⟩ i hi
    have hbi := hall i (List.mem_range.mpr hi)
    simp only [beq_iff_eq] at hbi
    rw [← hw i hi]
    exact hbi
  · intro hp
    refine ⟨hfill.mpr h6, ?_⟩
    intro i hi
    rw [List.mem_range] at hi
    simp only [beq_iff_eq]
    rw [hw i hi]
    exact hp i hi

-- ===========================================================================
-- Claim theorems: trigger pattern detection
-- ===========================================================================

/-- Claim C1: for a byte stream containing the 6-byte trigger pattern at
offset k and in which no other 6-byte window equals the pattern, feeding
the stream byte-by-byte through prv_push_req_byte makes prv_req_match
return true exactly after the last byte of the embedded pattern (after
k + 6 bytes) and false after every other prefix; in particular it is false
before 6 bytes have been pushed. -/
theorem trigger_matches_only_at_pattern_end (s : List Nat) (k : Nat)
    (hk : k + 6 ≤ s.length)
    (hpat : ∀ i, i < 6 → s.getD (k + i) 0 = REQ_FRAME.getD i 0)
    (huniq : ∀ j, j < s.length → j + 6 ≤ s.length → j ≠ k →
      ¬(∀ i, i < 6 → s.getD (j + i) 0 = REQ_FRAME.getD i 0))
    (m : Nat) (hm : m ≤ s.length) :
    (prv_req_match (pushBytes initReqState (s.take m)) = true ↔ m = k + 6) := by
  constructor
  · intro hmatch
    have h6 : 6 ≤ m := by
      obtain ⟨hidx, hfill, hwin⟩ := pushBytes_invariant s m hm
      have hfl : (pushBytes initReqState (s.take m)).req_filled = true := by
        rw [prv_req_match, Bool.and_eq_true] at hmatch
        exact hmatch.1
      exact hfill.mp hfl
    have hall := (req_match_char s m hm h6).mp hmatch
    by_contra hne
    have hjk : m - 6 ≠ k := by omega
    exact huniq (m - 6) (by omega) (by omega) hjk hall
  · intro hme
    subst hme
    apply (req_match_char s (k + 6) hm (by omega)).mpr
    intro i hi
    rw [show k + 6 - 6 + i = k + i from by omega]
    exact hpat i hi

/-- Witness for C1: in the stream [1, 2, 0x9B, 0x04, 0x11, 0x7C, 0xC3,
0x9D, 7] with the trigger pattern at offset 2, the matcher fires exactly
after the 8th byte. -/
theorem trigger_match_witness :
    prv_req_match (pushBytes initReqState
      (([1, 2, 0x9B, 0x04, 0x11, 0x7C, 0xC3, 0x9D, 7] : List Nat).take 8)) =
      true :=
  (trigger_matches_only_at_pattern_end
    [1, 2, 0x9B, 0x04, 0x11, 0x7C, 0xC3, 0x9D, 7] 2
    (by decide) (by decide) (by decide) 8 (by decide)).mpr rfl

-- ===========================================================================
-- Claim theorems: driver invariant
-- ===========================================================================

/-- Claim C10: the invariant "armed iff repeats_remaining > 0, and
repeats_remaining ≤ 5" holds at initialization and is preserved by arming,
disarming, and processing any incoming byte; moreover a processed byte
never transmits while the driver is disarmed. -/
theorem desk_armed_invariant :
    DeskInv initFullState.desk ∧
    (∀ (st : FullState) (op : DeskOp),
      DeskInv st.desk → DeskInv (applyOp st op).desk) ∧
    (∀ (st : FullState) (b : Nat), st.desk.armed = false →
      (processByte st b).2 = none) := by
  have hmatch : ∀ s : DeskState, DeskInv s → DeskInv (prv_on_match s).1 := by
    intro s hinv
    obtain ⟨fr, ar, r, w⟩ := s
    by_cases hc : ar = true ∧ 0 < r
    · obtain ⟨ha, hr⟩ := hc
      subst ha
      by_cases h1 : r - 1 = 0
      · have hm : prv_on_match ⟨fr, true, r, w⟩ =
            (⟨fr, false, 0, false⟩, some fr) := by
          simp [prv_on_match, hr, h1, prv_disarm]
        rw [hm]
        exact ⟨by simp, by simp [DEFAULT_REPEATS]⟩
      · have hm : prv_on_match ⟨fr, true, r, w⟩ =
            (⟨fr, true, r - 1, w⟩, some fr) := by
          simp [prv_on_match, hr, h1]
        rw [hm]
        refine ⟨?_, ?_⟩
        · constructor
          · intro _
            exact Nat.pos_of_ne_zero h1
          · intro _
            rfl
        · have h2 := hinv.2
          simp only [show DEFAULT_REPEATS = 5 from rfl] at h2 ⊢
          omega
    · rw [prv_on_match, if_neg hc]
      exact hinv
  refine ⟨by decide, ?_, ?_⟩
  · intro st op hinv
    cases op with
    | arm f =>
        constructor
        · simp [applyOp, prv_arm_with, DEFAULT_REPEATS]
        · simp [applyOp, prv_arm_with]
    | disarm =>
        constructor
        · simp [applyOp, prv_disarm]
        · simp [applyOp, prv_disarm]
    | byte b =>
        simp only [applyOp, processByte]
        by_cases hm : prv_req_match (prv_push_req_byte st.req b) = true
        · rw [if_pos hm]
          exact hmatch st.desk hinv
        · rw [if_neg hm]
          exact hinv
  · intro st b hdis
    rw [processByte]
    by_cases hm : prv_req_match (prv_push_req_byte st.req b) = true
    · rw [if_pos hm]
      simp [prv_on_match_disarmed st.desk hdis]
    · rw [if_neg hm]

/-- Witness for C10: the invariant holds after arming the freshly
initialized driver with CMD_UP. -/
theorem desk_armed_invariant_witness :
    DeskInv (applyOp initFullState (DeskOp.arm CMD_UP)).desk :=
  desk_armed_invariant.2.1 initFullState (DeskOp.arm CMD_UP) (by decide)

end MovyDesk
